import Mathlib

/-
Verification of the winerp-client-node protocol engine: the MessagePayload
envelope codec, the Client message dispatcher, the authorization guards of
request and inform, and the per-request correlation listener with its timeout.
Each definition is a shallow embedding of the corresponding code in
src/src/client.ts and the types module (src/unnamed/part_003).
-/

namespace WinerpClient

/-- JSON atomic values appearing as entries of keyed payload mappings and as
the opaque pseudo_object passthrough. The client code only ever inspects
strings and integers of an envelope; atomic entries suffice for the payload
entries of the model. -/
inductive JValue where
  | str : String → JValue
  | num : Int → JValue
  | bool : Bool → JValue
  | null : JValue
deriving DecidableEq, Repr

/-- Value of the data field: Record of string to unknown, or a plain string,
as declared for MessagePayload.data in the types module. -/
inductive DataValue where
  | str : String → DataValue
  | obj : List (String × JValue) → DataValue
deriving DecidableEq, Repr

/-- JS truthiness on the data field type: among values of type
Record or string, the empty string is the only falsy one (objects are always
truthy). This drives the constructor expression msg.data || default. -/
def DataValue.truthy : DataValue → Bool
  | .str s => s != ""
  | .obj _ => true

/-- Route field of an envelope: string or string array. -/
inductive RouteField where
  | one : String → RouteField
  | many : List String → RouteField
deriving DecidableEq, Repr

-- Integer wire codes of the Paylods enum (types module, lines 1-10).
namespace Paylods

def success : Nat := 0
def verification : Nat := 1
def request : Nat := 2
def response : Nat := 3
def error : Nat := 4
def ping : Nat := 5
def information : Nat := 6
def function_call : Nat := 7

end Paylods

/-- A JSON envelope object as it crosses the wire. This is the shape of both
the anonymous argument object of the MessagePayload constructor (every field
other than type optional) and the object JSON.parse returns for an inbound
message: JSON.stringify omits keys whose value is undefined and JSON.parse
restores exactly the keys present, so an absent key is modeled as none. -/
structure Wire where
  id : Option String := none
  type : Nat
  route : Option RouteField := none
  data : Option DataValue := none
  traceback : Option String := none
  uuid : Option String := none
  destination : Option String := none
  pseudo_object : Option JValue := none
deriving DecidableEq, Repr

/-- The defaulting the MessagePayload constructor applies to data: the
expression msg.data || emptyObject keeps a truthy value and replaces undefined
or the empty string (the falsy values of the field type) with the empty
mapping. -/
def dataDefault : Option DataValue → DataValue
  | none => .obj []
  | some d => if d.truthy then d else .obj []

/-- An instance of the MessagePayload class: the constructor has copied every
field of the argument object, with data defaulted, so data is never absent on
an instance. -/
structure MessagePayload where
  id : Option String
  type : Nat
  route : Option RouteField
  traceback : Option String
  data : DataValue
  uuid : Option String
  destination : Option String
  pseudo_object : Option JValue
deriving DecidableEq, Repr

/-- The MessagePayload constructor (types module, lines 169-187): copies each
field of the argument object and sets this.data to msg.data || emptyObject. -/
def MessagePayload.fromArgs (msg : Wire) : MessagePayload where
  id := msg.id
  type := msg.type
  route := msg.route
  traceback := msg.traceback
  data := dataDefault msg.data
  uuid := msg.uuid
  destination := msg.destination
  pseudo_object := msg.pseudo_object

/-- Composite of toString (JSON.stringify over the eight listed fields, types
module lines 193-204) with JSON.parse on the receiving side. The JSON library
is the external serializer of the spec and is faithful on JSON-representable
values, so the composite reproduces each present field and drops the absent
ones; data is always present on an instance. -/
def MessagePayload.toWire (p : MessagePayload) : Wire where
  id := p.id
  type := p.type
  route := p.route
  data := some p.data
  traceback := p.traceback
  uuid := p.uuid
  destination := p.destination
  pseudo_object := p.pseudo_object

/-- Encode an envelope given as a constructor argument object, then parse it
back: construct the MessagePayload, serialize, deserialize. -/
def roundTrip (e : Wire) : Wire := (MessagePayload.fromArgs e).toWire

/-- Concrete envelope whose data is present and is the empty string. -/
def c2Envelope : Wire := { type := Paylods.response, data := some (.str "") }

/-- C2 counterexample: an envelope whose data field is present but holds the
empty string is not preserved by encode then decode; the constructor
defaulting msg.data || emptyObject replaces it with the empty mapping, so a
present data field is also transformed, not only an absent one. -/
theorem c2_counterexample :
    (roundTrip c2Envelope).data = some (DataValue.obj []) ∧
    c2Envelope.data = some (DataValue.str "") ∧
    (roundTrip c2Envelope).data ≠ c2Envelope.data := by
  refine ⟨rfl, rfl, ?_⟩
  decide

/-- C2 (amended): encode then decode preserves id, type, route, uuid,
destination, traceback and pseudo_object exactly, and maps data through the
constructor default: absent data and empty-string data (the JS-falsy values
fed to msg.data || emptyObject) become the empty mapping, and every other
data value is preserved. -/
theorem c2_amended (e : Wire) (d : DataValue) :
    roundTrip e = { e with data := some (dataDefault e.data) } ∧
    dataDefault none = DataValue.obj [] ∧
    dataDefault (some (DataValue.str "")) = DataValue.obj [] ∧
    (d ≠ DataValue.str "" → dataDefault (some d) = d) := by
  refine ⟨rfl, rfl, rfl, ?_⟩
  intro hd
  cases d with
  | str s =>
      have hs : s ≠ "" := fun h => hd (by rw [h])
      simp [dataDefault, DataValue.truthy, hs]
  | obj m => simp [dataDefault, DataValue.truthy]

/-- C2 witness: the amended round-trip law evaluated on concrete envelopes. -/
theorem c2_amended_witness :
    roundTrip { type := Paylods.response } =
      { type := Paylods.response, data := some (dataDefault none) } ∧
    dataDefault none = DataValue.obj [] ∧
    dataDefault (some (DataValue.str "")) = DataValue.obj [] ∧
    dataDefault (some (DataValue.str "pong")) = DataValue.str "pong" := by
  have h := c2_amended { type := Paylods.response } (DataValue.str "pong")
  exact ⟨h.1, h.2.1, h.2.2.1, h.2.2.2 (by decide)⟩

/-- Value a handler rejects with: in JS any value can be thrown; the
dispatcher only distinguishes an Error instance (carrying a message string)
from everything else. -/
inductive RejectVal where
  | errorInstance : String → RejectVal
  | nonError : RejectVal
deriving DecidableEq, Repr

/-- Settled outcome of the promise a route handler returns. -/
inductive HandlerResult where
  | resolved : DataValue → HandlerResult
  | rejected : RejectVal → HandlerResult

/-- A registered route handler: receives the data field of the inbound
request envelope (possibly absent on the parsed object) and settles. -/
abbrev RouteHandler := Option DataValue → HandlerResult

/-- Mutable fields of the Client class: the route table, the _authorized and
_on_hold flags and the immutable local_name. -/
structure ClientState where
  routes : List (String × RouteHandler)
  authorized : Bool
  on_hold : Bool
  local_name : String

/-- Lookup this.routes.get(data.route as string): the Map is keyed by the
strings passed to route registration, so only a plain string route can hit an
entry; an absent route or a string array yields undefined. -/
def routesGet (routes : List (String × RouteHandler)) :
    Option RouteField → Option RouteHandler
  | some (.one s) => (routes.find? (fun p => p.fst == s)).map Prod.snd
  | _ => none

/-- Message the dispatcher writes into the data field of the Error envelope
for a rejected handler: the message of an Error instance, otherwise the
literal Internal Server Error. -/
def errorMessage : RejectVal → String
  | .errorInstance m => m
  | .nonError => "Internal Server Error"

/-- The wire form of the Error envelope the dispatcher sends when a handler
rejects: built by the MessagePayload constructor from id, type and data only,
so uuid and destination are absent. -/
def rejectionWire (name : String) (rv : RejectVal) : Wire :=
  (MessagePayload.fromArgs
    { id := some name, type := Paylods.error,
      data := some (.str (errorMessage rv)) }).toWire

/-- The wire form of the Error envelope the dispatcher sends for an
unregistered route (client.ts lines 89-96): data and traceback carry the
literal Route not found, destination is the id of the requester and uuid is
the uuid of the request. -/
def routeNotFoundWire (name : String) (w : Wire) : Wire :=
  (MessagePayload.fromArgs
    { type := Paylods.error, id := some name,
      data := some (.str "Route not found"),
      traceback := some "Route not found",
      destination := w.id, uuid := w.uuid }).toWire

/-- The wire form of the Response envelope the dispatcher sends when a
handler resolves (client.ts lines 104-110): built from id, type and the
resolved value only, so uuid and destination are absent. -/
def responseWire (name : String) (res : DataValue) : Wire :=
  (MessagePayload.fromArgs
    { id := some name, type := Paylods.response, data := some res }).toWire

/-- Result of one run of handleMessage on a parsed envelope: the updated
client state, the envelopes passed to this.client.send, and whether a route
handler was invoked. -/
structure HandleResult where
  state : ClientState
  sent : List Wire
  handlerInvoked : Bool

/-- The handleMessage listener body (client.ts lines 74-125) after a
successful JSON.parse, with the settled outcome of an invoked handler folded
in: set _authorized on success, set _on_hold on the already-authorized error,
and dispatch a request to the route table, answering route-not-found with an
Error envelope, a resolution with a Response envelope and a rejection with an
Error envelope. -/
def handleMessage (st : ClientState) (w : Wire) : HandleResult :=
  let st1 := if w.type = Paylods.success
    then { st with authorized := true, on_hold := false } else st
  let st2 := if w.type = Paylods.error ∧ w.data = some (.str "Already authorized.")
    then { st1 with on_hold := true } else st1
  if w.type = Paylods.request then
    match routesGet st2.routes w.route with
    | none =>
        { state := st2, sent := [routeNotFoundWire st2.local_name w],
          handlerInvoked := false }
    | some route =>
        match route w.data with
        | .resolved res =>
            { state := st2, sent := [responseWire st2.local_name res],
              handlerInvoked := true }
        | .rejected err =>
            { state := st2, sent := [rejectionWire st2.local_name err],
              handlerInvoked := true }
  else
    { state := st2, sent := [], handlerInvoked := false }

/-- The full inbound message path: JSON.parse of the raw event data followed
by handleMessage. The parse result is none for a payload that is not
well-formed JSON; JSON.parse then throws and, handleMessage having no
try-catch, the exception escapes the listener, modeled as the error case. -/
def handleMessageRaw (st : ClientState) (input : Option Wire) :
    Except Unit HandleResult :=
  match input with
  | none => Except.error ()
  | some w => Except.ok (handleMessage st w)

/-- The handleDisconnect close listener (client.ts lines 65-67): it only
calls console.log, so the state is returned unchanged and no envelope is
sent (in particular no reconnection handshake starts). -/
def handleDisconnect (st : ClientState) : ClientState × List Wire := (st, [])

/-- Errors request and inform throw before doing anything else. -/
inductive SendError where
  | notAuthorized
  | onHold
deriving DecidableEq, Repr

/-- Delay in milliseconds armed by setTimeout in request: the timeout
parameter in seconds, defaulted to 60, times 1000. -/
def requestDelayMs (timeout : Option Nat) : Nat := timeout.getD 60 * 1000

/-- The envelope sent plus the armed timer delay, for a request call that
passes the guards. -/
structure RequestStart where
  payload : Wire
  delayMs : Nat
deriving DecidableEq, Repr

/-- The synchronous send side of request (client.ts lines 170-190): guard on
_authorized then _on_hold, build the Request envelope through the
MessagePayload constructor with a fresh uuid, send it and arm the timer. The
uuid argument stands for the freshly generated uuid4 value. -/
def request (st : ClientState) (destination route : String) (d : DataValue)
    (timeout : Option Nat) (uuid : String) : Except SendError RequestStart :=
  if st.authorized = false then Except.error .notAuthorized
  else if st.on_hold = true then Except.error .onHold
  else
    let payload := MessagePayload.fromArgs
      { type := Paylods.request, id := some st.local_name,
        destination := some destination, route := some (.one route),
        data := some d, uuid := some uuid }
    Except.ok { payload := payload.toWire, delayMs := requestDelayMs timeout }

/-- The inform call (client.ts lines 140-151): guard on _authorized then
_on_hold, wrap a lone destination into a singleton array and send an
Information envelope. -/
def inform (st : ClientState) (destinations : RouteField) (d : DataValue) :
    Except SendError Wire :=
  if st.authorized = false then Except.error .notAuthorized
  else if st.on_hold = true then Except.error .onHold
  else
    let routeList := match destinations with
      | .many l => l
      | .one s => [s]
    Except.ok (MessagePayload.fromArgs
      { type := Paylods.information, route := some (.many routeList),
        data := some d }).toWire

/-- Envelopes a request call put on the transport: none when a guard threw. -/
def sentOf : Except SendError RequestStart → List Wire
  | .error _ => []
  | .ok r => [r.payload]

/-- Envelopes an inform call put on the transport: none when a guard threw. -/
def informSent : Except SendError Wire → List Wire
  | .error _ => []
  | .ok w => [w]

/-- State of one Pending Request inside the promise of request (client.ts
lines 192-214): whether the respond listener is still registered, whether the
armed timer is still set, and the resolution slot of the promise (some r once
resolved; the resolved value is the data field for a response and null for an
error or the timeout). -/
structure PendingState where
  listening : Bool
  timerActive : Bool
  result : Option (Option DataValue)
deriving DecidableEq, Repr

/-- State right after the Request envelope is sent: listener registered,
timer armed, promise unresolved. -/
def pendingInit : PendingState :=
  { listening := true, timerActive := true, result := none }

/-- An event observed by a Pending Request: an inbound parsed message, or the
firing of its armed timer. -/
inductive Event where
  | msg : Wire → Event
  | timerFire : Event
deriving DecidableEq, Repr

/-- Resolution of the promise: resolve is a no-op once the promise has
settled. -/
def resolveOnce (r : Option (Option DataValue)) (v : Option DataValue) :
    Option (Option DataValue) :=
  match r with
  | some x => some x
  | none => some v

/-- One event processed by a Pending Request with correlation id u: the
respond listener runs only while registered and acts only on an envelope
whose uuid equals u, removing itself and clearing the timer when it resolves;
the timer, when it fires, removes the listener and resolves with null. -/
def step (u : String) (s : PendingState) (e : Event) : PendingState :=
  match e with
  | .msg w =>
      if s.listening = true ∧ w.uuid = some u then
        if w.type = Paylods.response then
          { listening := false, timerActive := false,
            result := resolveOnce s.result w.data }
        else if w.type = Paylods.error then
          { listening := false, timerActive := false,
            result := resolveOnce s.result none }
        else s
      else s
  | .timerFire =>
      if s.timerActive = true then
        { listening := false, timerActive := false,
          result := resolveOnce s.result none }
      else s

/-- Process a whole sequence of events from the freshly armed state. -/
def run (u : String) (evs : List Event) : PendingState :=
  evs.foldl (step u) pendingInit

/-- An event that resolves the Pending Request with id u: an inbound message
carrying uuid u of type Response or Error. -/
def matchesResp (u : String) : Event → Prop
  | .msg w => w.uuid = some u ∧ (w.type = Paylods.response ∨ w.type = Paylods.error)
  | .timerFire => False

instance (u : String) : DecidablePred (matchesResp u) := fun e =>
  match e with
  | .msg w => inferInstanceAs (Decidable
      (w.uuid = some u ∧ (w.type = Paylods.response ∨ w.type = Paylods.error)))
  | .timerFire => inferInstanceAs (Decidable False)

/-- A message event that does not match the pending id (or matches it with a
type other than Response or Error) leaves the pending state unchanged. -/
theorem step_msg_unchanged (u : String) (s : PendingState) (w : Wire)
    (hm : ¬ matchesResp u (Event.msg w)) : step u s (Event.msg w) = s := by
  simp only [matchesResp] at hm
  simp only [step]
  split_ifs with h1 h2 h3
  · exact absurd ⟨h1.2, Or.inl h2⟩ hm
  · exact absurd ⟨h1.2, Or.inr h3⟩ hm
  · rfl
  · rfl

/-- Once the listener is removed and the timer is gone, no event changes the
pending state. -/
theorem step_settled (u : String) (s : PendingState) (e : Event)
    (hl : s.listening = false) (ht : s.timerActive = false) :
    step u s e = s := by
  cases e with
  | msg w => simp [step, hl]
  | timerFire => simp [step, ht]

/-- Folding events over a settled state leaves it unchanged. -/
theorem foldl_settled (u : String) (evs : List Event) :
    ∀ s : PendingState, s.listening = false → s.timerActive = false →
      evs.foldl (step u) s = s := by
  induction evs with
  | nil => intro s _ _; rfl
  | cons e rest ih =>
      intro s hl ht
      rw [List.foldl_cons, step_settled u s e hl ht]
      exact ih s hl ht

/-- Events that neither match the pending id nor are the timer firing leave
any pending state unchanged. -/
theorem foldl_unchanged (u : String) (evs : List Event)
    (hnm : ∀ x ∈ evs, ¬ matchesResp u x) (hnt : Event.timerFire ∉ evs) :
    ∀ s : PendingState, evs.foldl (step u) s = s := by
  induction evs with
  | nil => intro s; rfl
  | cons e rest ih =>
      intro s
      have he : step u s e = s := by
        cases e with
        | msg w => exact step_msg_unchanged u s w (hnm _ (List.mem_cons_self _ _))
        | timerFire => exact absurd (List.mem_cons_self _ _) hnt
      rw [List.foldl_cons, he]
      exact ih (fun x hx => hnm x (List.mem_cons_of_mem _ hx))
        (fun hx => hnt (List.mem_cons_of_mem _ hx)) s

/-- Invariant of the pending machine: a resolved state has its listener
removed and its timer gone. -/
def settledOk (s : PendingState) : Prop :=
  s.result.isSome = true → s.listening = false ∧ s.timerActive = false

theorem settledOk_step (u : String) (s : PendingState) (e : Event)
    (h : settledOk s) : settledOk (step u s e) := by
  cases e with
  | msg w =>
      simp only [step]
      split_ifs with h1 h2 h3
      · intro _; exact ⟨rfl, rfl⟩
      · intro _; exact ⟨rfl, rfl⟩
      · exact h
      · exact h
  | timerFire =>
      simp only [step]
      split_ifs with h1
      · intro _; exact ⟨rfl, rfl⟩
      · exact h

theorem settledOk_foldl (u : String) (evs : List Event) :
    ∀ s : PendingState, settledOk s → settledOk (evs.foldl (step u) s) := by
  induction evs with
  | nil => intro s h; exact h
  | cons e rest ih =>
      intro s h
      rw [List.foldl_cons]
      exact ih _ (settledOk_step u s e h)

/-- C4: an inbound Response envelope whose uuid is A resolves the freshly
armed Pending Request for A with the data of the envelope, while the Pending
Request for a distinct id B, in any state, is left exactly as it was: each
respond listener acts only on envelopes carrying its own correlation id. -/
theorem c4_correlation (A B : String) (sB : PendingState) (w : Wire)
    (hne : A ≠ B) (hu : w.uuid = some A) (ht : w.type = Paylods.response) :
    step A pendingInit (Event.msg w) =
      { listening := false, timerActive := false, result := some w.data } ∧
    step B sB (Event.msg w) = sB := by
  constructor
  · simp [step, pendingInit, hu, ht, resolveOnce]
  · have hB : ¬ w.uuid = some B := by
      rw [hu]
      intro hc
      exact hne (Option.some.inj hc)
    simp [step, hB]

/-- Concrete response envelope tagged with correlation id a. -/
def c4Wire : Wire :=
  { type := Paylods.response, uuid := some "a", data := some (DataValue.str "ok") }

/-- C4 witness: two concrete pending requests a and b; a response tagged a
resolves a and leaves b untouched. -/
theorem c4_correlation_witness :
    step "a" pendingInit (Event.msg c4Wire) =
      { listening := false, timerActive := false,
        result := some (some (DataValue.str "ok")) } ∧
    step "b" pendingInit (Event.msg c4Wire) = pendingInit := by
  exact c4_correlation "a" "b" pendingInit c4Wire (by decide) rfl rfl

/-- C5: correlation timeout behavior of a Pending Request with id u. First,
while no matching Response or Error arrives and the timer has not fired, the
request stays exactly in its armed unresolved state (it does not resolve
early). Second, when the timer fires with no matching envelope anywhere in
the trace, the request resolves with null exactly at that firing, and every
later event, a late response included, leaves the settled state unchanged.
Third, resolution is claimed at most once: whatever trace resolved the
request, a further event never changes the outcome. Fourth, the armed delay
is the timeout parameter in seconds times 1000, with 60 as the default. -/
theorem c5_timeout (u : String) (evs pre post : List Event) (e : Event) (t : Nat) :
    (Event.timerFire ∉ evs → (∀ x ∈ evs, ¬ matchesResp u x) →
       run u evs = pendingInit) ∧
    (Event.timerFire ∉ pre → (∀ x ∈ pre, ¬ matchesResp u x) →
       run u (pre ++ Event.timerFire :: post) =
         { listening := false, timerActive := false, result := some none }) ∧
    ((run u evs).result.isSome = true → run u (evs ++ [e]) = run u evs) ∧
    requestDelayMs none = 60 * 1000 ∧ requestDelayMs (some t) = t * 1000 := by
  refine ⟨?_, ?_, ?_, rfl, rfl⟩
  · intro hnt hnm
    exact foldl_unchanged u evs hnm hnt pendingInit
  · intro hnt hnm
    unfold run
    rw [List.foldl_append, foldl_unchanged u pre hnm hnt pendingInit,
      List.foldl_cons]
    have hstep : step u pendingInit Event.timerFire =
        { listening := false, timerActive := false, result := some none } := rfl
    rw [hstep]
    exact foldl_settled u post _ rfl rfl
  · intro hres
    have hok : settledOk (run u evs) :=
      settledOk_foldl u evs pendingInit (by intro h; cases h)
    obtain ⟨hl, ht⟩ := hok hres
    unfold run
    rw [List.foldl_append]
    exact foldl_settled u [e] _ hl ht

/-- Concrete response envelope for a different pending request. -/
def c5Other : Wire := { type := Paylods.response, uuid := some "other" }

/-- Concrete matching response envelope that arrives only after the timer. -/
def c5Late : Wire := { type := Paylods.response, uuid := some "u" }

/-- C5 witness: a trace whose only message does not match stays in the armed
unresolved state; with the timer firing next and a late matching response
after it, the request resolves with null exactly at the firing and the late
response is a no-op; the default delay is 60000 milliseconds. -/
theorem c5_timeout_witness :
    (run "u" [Event.msg c5Other] = pendingInit) ∧
    (run "u" ([Event.msg c5Other] ++ Event.timerFire :: [Event.msg c5Late]) =
       { listening := false, timerActive := false, result := some none }) ∧
    requestDelayMs none = 60 * 1000 := by
  have h := c5_timeout "u" [Event.msg c5Other] [Event.msg c5Other]
    [Event.msg c5Late] Event.timerFire 60
  exact ⟨h.1 (by decide) (by decide), h.2.1 (by decide) (by decide), h.2.2.2.1⟩

/-- C3: both outbound guards fire before anything reaches the transport. An
unauthorized client fails request and inform with the not-authorized error
and sends nothing; an authorized client on hold fails them with the on-hold
error, again sending nothing, the authorized check running first. -/
theorem c3_guards (st : ClientState) (dest rt : String) (d : DataValue)
    (t : Option Nat) (u : String) (dsts : RouteField) (idat : DataValue) :
    (st.authorized = false →
       request st dest rt d t u = Except.error SendError.notAuthorized ∧
       sentOf (request st dest rt d t u) = [] ∧
       inform st dsts idat = Except.error SendError.notAuthorized ∧
       informSent (inform st dsts idat) = []) ∧
    (st.authorized = true → st.on_hold = true →
       request st dest rt d t u = Except.error SendError.onHold ∧
       sentOf (request st dest rt d t u) = [] ∧
       inform st dsts idat = Except.error SendError.onHold ∧
       informSent (inform st dsts idat) = []) := by
  constructor
  · intro hna
    simp [request, inform, hna, sentOf, informSent]
  · intro ha hh
    simp [request, inform, ha, hh, sentOf, informSent]

/-- Concrete unauthorized client. -/
def c3StateA : ClientState :=
  { routes := [], authorized := false, on_hold := false, local_name := "A" }

/-- Concrete authorized client that is on hold. -/
def c3StateB : ClientState :=
  { routes := [], authorized := true, on_hold := true, local_name := "B" }

/-- C3 witness: the guards evaluated on two concrete client states. -/
theorem c3_guards_witness :
    (request c3StateA "d" "r" (DataValue.obj []) none "u" =
       Except.error SendError.notAuthorized ∧
     sentOf (request c3StateA "d" "r" (DataValue.obj []) none "u") = [] ∧
     inform c3StateA (RouteField.one "x") (DataValue.obj []) =
       Except.error SendError.notAuthorized ∧
     informSent (inform c3StateA (RouteField.one "x") (DataValue.obj [])) = []) ∧
    (request c3StateB "d" "r" (DataValue.obj []) none "u" =
       Except.error SendError.onHold ∧
     sentOf (request c3StateB "d" "r" (DataValue.obj []) none "u") = [] ∧
     inform c3StateB (RouteField.one "x") (DataValue.obj []) =
       Except.error SendError.onHold ∧
     informSent (inform c3StateB (RouteField.one "x") (DataValue.obj [])) = []) := by
  exact ⟨(c3_guards c3StateA "d" "r" (DataValue.obj []) none "u"
            (RouteField.one "x") (DataValue.obj [])).1 rfl,
         (c3_guards c3StateB "d" "r" (DataValue.obj []) none "u"
            (RouteField.one "x") (DataValue.obj [])).2 rfl rfl⟩

/-- Concrete authorized client observing a transport close. -/
def c7State : ClientState :=
  { routes := [], authorized := true, on_hold := false, local_name := "A" }

/-- C7 counterexample: after a transport close the authorized flag is not
reset to false; an authorized client stays authorized and a subsequent
request still builds and sends an envelope, so outbound traffic is not shut
off by the close. -/
theorem c7_counterexample :
    (handleDisconnect c7State).fst.authorized = true ∧
    sentOf (request (handleDisconnect c7State).fst "dest" "r"
      (DataValue.obj []) none "u-7") ≠ [] := by
  exact ⟨rfl, by decide⟩

/-- C7 (amended): the close listener only logs: the client state is returned
unchanged, every flag keeping its prior value, and no envelope is sent, so in
particular no automatic reconnection or fresh verification is initiated. -/
theorem c7_amended (st : ClientState) : handleDisconnect st = (st, []) := rfl

/-- Concrete unauthorized client receiving raw transport input. -/
def c8State : ClientState :=
  { routes := [], authorized := false, on_hold := false, local_name := "C" }

/-- C8 counterexample: a transport message whose payload is not well-formed
JSON makes the inbound handler throw (JSON.parse throws and handleMessage has
no try-catch), so processing such a message does throw out of the inbound
handler rather than rejecting it as a MalformedEnvelope error. -/
theorem c8_counterexample : handleMessageRaw c8State none = Except.error () := rfl

/-- Concrete envelope with an out-of-range type code. -/
def c8Wire : Wire := { type := 99 }

/-- C8 (amended): a payload that is not well-formed JSON makes the exception
of JSON.parse escape the inbound handler (there is no MalformedEnvelope
handling), while a well-formed payload whose type code is not one of the
eight enum values is silently ignored: no state change, no outbound send, no
handler invocation and no error raised. -/
theorem c8_amended (st : ClientState) (w : Wire) (hw : 8 ≤ w.type) :
    handleMessageRaw st none = Except.error () ∧
    handleMessageRaw st (some w) =
      Except.ok { state := st, sent := [], handlerInvoked := false } := by
  refine ⟨rfl, ?_⟩
  have h0 : ¬ w.type = Paylods.success := by simp only [Paylods.success]; omega
  have h4 : ¬ (w.type = Paylods.error ∧
      w.data = some (DataValue.str "Already authorized.")) := by
    rintro ⟨hc, -⟩
    simp only [Paylods.error] at hc
    omega
  have h2 : ¬ w.type = Paylods.request := by simp only [Paylods.request]; omega
  simp only [handleMessageRaw, handleMessage, if_neg h0, if_neg h4, if_neg h2]

/-- C8 witness: the amended behavior on a concrete state, with the
out-of-range type code 99. -/
theorem c8_amended_witness :
    handleMessageRaw c8State none = Except.error () ∧
    handleMessageRaw c8State (some c8Wire) =
      Except.ok { state := c8State, sent := [], handlerInvoked := false } :=
  c8_amended c8State c8Wire (by decide)

/-- C6: an inbound Request envelope for an unregistered route makes the
dispatcher send exactly one Error envelope whose data and traceback are the
literal Route not found, whose destination is the id of the requester and
whose uuid echoes the uuid of the request; no handler is invoked and the
client state is unchanged. -/
theorem c6_route_not_found (st : ClientState) (w : Wire)
    (ht : w.type = Paylods.request) (hr : routesGet st.routes w.route = none) :
    handleMessage st w =
      { state := st, sent := [routeNotFoundWire st.local_name w],
        handlerInvoked := false } ∧
    (routeNotFoundWire st.local_name w).type = Paylods.error ∧
    (routeNotFoundWire st.local_name w).data =
      some (DataValue.str "Route not found") ∧
    (routeNotFoundWire st.local_name w).traceback = some "Route not found" ∧
    (routeNotFoundWire st.local_name w).destination = w.id ∧
    (routeNotFoundWire st.local_name w).uuid = w.uuid := by
  have h0 : ¬ w.type = Paylods.success := by
    rw [ht]; decide
  have h4 : ¬ (w.type = Paylods.error ∧
      w.data = some (DataValue.str "Already authorized.")) := by
    rintro ⟨hc, -⟩
    rw [ht] at hc
    exact absurd hc (by decide)
  refine ⟨?_, rfl, rfl, rfl, rfl, rfl⟩
  simp only [handleMessage, if_neg h0, if_neg h4, if_pos ht, hr]

/-- Concrete client with an empty route table. -/
def c6State : ClientState :=
  { routes := [], authorized := true, on_hold := false, local_name := "A" }

/-- Concrete request for a route that is not registered. -/
def c6Req : Wire :=
  { id := some "B", type := Paylods.request,
    route := some (RouteField.one "nope"), uuid := some "u-6" }

/-- C6 witness: dispatching a concrete request for an unknown route. -/
theorem c6_route_not_found_witness :
    handleMessage c6State c6Req =
      { state := c6State, sent := [routeNotFoundWire "A" c6Req],
        handlerInvoked := false } ∧
    (routeNotFoundWire "A" c6Req).destination = some "B" ∧
    (routeNotFoundWire "A" c6Req).uuid = some "u-6" := by
  have h := c6_route_not_found c6State c6Req rfl rfl
  exact ⟨h.1, h.2.2.2.2.1, h.2.2.2.2.2⟩

/-- Handler of the ping route, resolving with the pong mapping. -/
def c1Handler : RouteHandler :=
  fun _ => HandlerResult.resolved (DataValue.obj [("pong", JValue.bool true)])

/-- Client A with the ping route registered. -/
def c1State : ClientState :=
  { routes := [("ping", c1Handler)], authorized := true, on_hold := false,
    local_name := "A" }

/-- The inbound ping request of client B, correlation id u-1. -/
def c1Req : Wire :=
  { id := some "B", type := Paylods.request,
    route := some (RouteField.one "ping"), data := some (DataValue.obj []),
    uuid := some "u-1" }

/-- C1: evaluation of the dispatcher at the ping scenario. Exactly one
Response envelope is sent and it carries the handler value as data, but its
uuid is absent, not the echoed correlation id u-1 of the request: the
Response was built from id, type and data only. Consequently the respond
listener of the requester, which requires uuid equality, never matches this
envelope, so the request of client B cannot resolve with the pong value and
can only end by its timeout. -/
theorem c1_response_uuid_missing :
    (handleMessage c1State c1Req).sent =
      [responseWire "A" (DataValue.obj [("pong", JValue.bool true)])] ∧
    (responseWire "A" (DataValue.obj [("pong", JValue.bool true)])).type =
      Paylods.response ∧
    (responseWire "A" (DataValue.obj [("pong", JValue.bool true)])).data =
      some (DataValue.obj [("pong", JValue.bool true)]) ∧
    (responseWire "A" (DataValue.obj [("pong", JValue.bool true)])).uuid = none ∧
    step "u-1" pendingInit
      (Event.msg (responseWire "A" (DataValue.obj [("pong", JValue.bool true)]))) =
      pendingInit := by
  refine ⟨rfl, rfl, rfl, rfl, ?_⟩
  decide

/-- C10 (amended): when a registered handler rejects, the dispatcher sends
exactly one Error envelope; its data is the message of the rejection when the
rejection is an Error instance with a nonempty message (an empty message
falls into the data default and becomes the empty mapping) and the literal
Internal Server Error otherwise; the envelope carries neither uuid nor
destination, so no pending listener, in any state, can match it and the
originating request can only end by timeout. -/
theorem c10_amended (st : ClientState) (w : Wire) (h : RouteHandler)
    (rv : RejectVal) (u : String) (s : PendingState)
    (ht : w.type = Paylods.request) (hr : routesGet st.routes w.route = some h)
    (hrej : h w.data = HandlerResult.rejected rv) :
    handleMessage st w =
      { state := st, sent := [rejectionWire st.local_name rv],
        handlerInvoked := true } ∧
    (rejectionWire st.local_name rv).uuid = none ∧
    (rejectionWire st.local_name rv).destination = none ∧
    (rejectionWire st.local_name rv).type = Paylods.error ∧
    (∀ m, rv = RejectVal.errorInstance m → m ≠ "" →
       (rejectionWire st.local_name rv).data = some (DataValue.str m)) ∧
    (rv = RejectVal.nonError →
       (rejectionWire st.local_name rv).data =
         some (DataValue.str "Internal Server Error")) ∧
    step u s (Event.msg (rejectionWire st.local_name rv)) = s := by
  have h0 : ¬ w.type = Paylods.success := by
    rw [ht]; decide
  have h4 : ¬ (w.type = Paylods.error ∧
      w.data = some (DataValue.str "Already authorized.")) := by
    rintro ⟨hc, -⟩
    rw [ht] at hc
    exact absurd hc (by decide)
  refine ⟨?_, rfl, rfl, rfl, ?_, ?_, ?_⟩
  · simp only [handleMessage, if_neg h0, if_neg h4, if_pos ht, hr, hrej]
  · intro m hm hne
    subst hm
    simp [rejectionWire, MessagePayload.fromArgs, MessagePayload.toWire,
      errorMessage, dataDefault, DataValue.truthy, hne]
  · intro hm
    subst hm
    rfl
  · have hu : (rejectionWire st.local_name rv).uuid = none := rfl
    simp [step, hu]

/-- Handler that rejects with an Error instance carrying an empty message. -/
def c10Handler : RouteHandler :=
  fun _ => HandlerResult.rejected (RejectVal.errorInstance "")

/-- Client whose route r rejects with an empty-message Error. -/
def c10State : ClientState :=
  { routes := [("r", c10Handler)], authorized := true, on_hold := false,
    local_name := "A" }

/-- Concrete request hitting route r. -/
def c10Req : Wire :=
  { id := some "B", type := Paylods.request,
    route := some (RouteField.one "r"), uuid := some "u-9" }

/-- C10 counterexample: a handler rejecting with an Error instance whose
message is the empty string does not put that message on the wire; the data
default of the MessagePayload constructor turns the empty string into the
empty mapping, so the Error envelope carries the empty mapping, not the
rejection message. -/
theorem c10_counterexample :
    (handleMessage c10State c10Req).sent.map Wire.data =
      [some (DataValue.obj [])] ∧
    some (DataValue.obj []) ≠ some (DataValue.str "") := by
  exact ⟨rfl, by decide⟩

/-- Handler that rejects with an Error instance carrying the message boom. -/
def c10HandlerB : RouteHandler :=
  fun _ => HandlerResult.rejected (RejectVal.errorInstance "boom")

/-- Client whose route r rejects with the boom Error. -/
def c10StateB : ClientState :=
  { routes := [("r", c10HandlerB)], authorized := true, on_hold := false,
    local_name := "A" }

/-- C10 witness: the amended claim evaluated at a concrete rejecting
handler. -/
theorem c10_amended_witness :
    handleMessage c10StateB c10Req =
      { state := c10StateB,
        sent := [rejectionWire "A" (RejectVal.errorInstance "boom")],
        handlerInvoked := true } ∧
    (rejectionWire "A" (RejectVal.errorInstance "boom")).uuid = none ∧
    (rejectionWire "A" (RejectVal.errorInstance "boom")).data =
      some (DataValue.str "boom") ∧
    step "u-9" pendingInit
      (Event.msg (rejectionWire "A" (RejectVal.errorInstance "boom"))) =
      pendingInit := by
  have h := c10_amended c10StateB c10Req c10HandlerB
    (RejectVal.errorInstance "boom") "u-9" pendingInit rfl rfl rfl
  exact ⟨h.1, h.2.1, h.2.2.2.2.1 "boom" rfl (by decide), h.2.2.2.2.2.2⟩

/-- The already-authorized Error envelope from the server. -/
def c9AlreadyWire : Wire :=
  { type := Paylods.error, data := some (DataValue.str "Already authorized.") }

/-- A fresh Success envelope from the server. -/
def c9SuccessWire : Wire := { type := Paylods.success }

/-- Client C, connected but not yet authorized. -/
def c9State : ClientState :=
  { routes := [], authorized := false, on_hold := false, local_name := "C" }

/-- C9 counterexample: a client that was never authorized receives the
already-authorized Error; on_hold becomes true, but its subsequent request
fails with the not-authorized error, not with the on-hold error, because the
authorized guard runs first. -/
theorem c9_counterexample :
    (handleMessage c9State c9AlreadyWire).state.on_hold = true ∧
    request (handleMessage c9State c9AlreadyWire).state "d" "r"
      (DataValue.obj []) none "u" = Except.error SendError.notAuthorized ∧
    SendError.notAuthorized ≠ SendError.onHold := by
  exact ⟨rfl, rfl, by decide⟩

/-- C9 (amended): receiving an Error envelope whose data is the literal
Already authorized. sets on_hold true and leaves authorized unchanged; from
then on request and inform fail before sending, with the on-hold error when
the client is authorized and with the not-authorized error otherwise, since
the authorized guard runs first; a subsequent Success envelope sets
authorized true and clears on_hold. -/
theorem c9_amended (st : ClientState) (w ws : Wire) (dest rt : String)
    (d idat : DataValue) (t : Option Nat) (u : String) (dsts : RouteField)
    (ht : w.type = Paylods.error)
    (hd : w.data = some (DataValue.str "Already authorized."))
    (hs : ws.type = Paylods.success) :
    (handleMessage st w).state.on_hold = true ∧
    (handleMessage st w).state.authorized = st.authorized ∧
    (st.authorized = true →
       request (handleMessage st w).state dest rt d t u =
         Except.error SendError.onHold ∧
       inform (handleMessage st w).state dsts idat =
         Except.error SendError.onHold) ∧
    (st.authorized = false →
       request (handleMessage st w).state dest rt d t u =
         Except.error SendError.notAuthorized ∧
       inform (handleMessage st w).state dsts idat =
         Except.error SendError.notAuthorized) ∧
    (handleMessage (handleMessage st w).state ws).state.authorized = true ∧
    (handleMessage (handleMessage st w).state ws).state.on_hold = false := by
  have h0 : ¬ w.type = Paylods.success := by
    rw [ht]; decide
  have h2 : ¬ w.type = Paylods.request := by
    rw [ht]; decide
  have hst : (handleMessage st w).state = { st with on_hold := true } := by
    simp only [handleMessage, if_neg h0, if_pos (And.intro ht hd), if_neg h2]
  have hs4 : ¬ (ws.type = Paylods.error ∧
      ws.data = some (DataValue.str "Already authorized.")) := by
    rintro ⟨hc, -⟩
    rw [hs] at hc
    exact absurd hc (by decide)
  have hs2 : ¬ ws.type = Paylods.request := by
    rw [hs]; decide
  have hsucc : ∀ s : ClientState, (handleMessage s ws).state =
      { s with authorized := true, on_hold := false } := by
    intro s
    simp only [handleMessage, if_pos hs, if_neg hs4, if_neg hs2]
  rw [hst, hsucc]
  refine ⟨rfl, rfl, ?_, ?_, rfl, rfl⟩
  · intro ha
    constructor
    · simp [request, ha]
    · simp [inform, ha]
  · intro hna
    constructor
    · simp [request, hna]
    · simp [inform, hna]

/-- C9 witness: the amended claim evaluated on the never-authorized client C
receiving the already-authorized Error and then a Success. -/
theorem c9_amended_witness :
    (handleMessage c9State c9AlreadyWire).state.on_hold = true ∧
    request (handleMessage c9State c9AlreadyWire).state "d" "r"
      (DataValue.obj []) none "u" = Except.error SendError.notAuthorized ∧
    (handleMessage (handleMessage c9State c9AlreadyWire).state
      c9SuccessWire).state.authorized = true ∧
    (handleMessage (handleMessage c9State c9AlreadyWire).state
      c9SuccessWire).state.on_hold = false := by
  have h := c9_amended c9State c9AlreadyWire c9SuccessWire "d" "r"
    (DataValue.obj []) (DataValue.obj []) none "u" (RouteField.one "x")
    rfl rfl rfl
  exact ⟨h.1, (h.2.2.2.1 rfl).1, h.2.2.2.2.1, h.2.2.2.2.2⟩

end WinerpClient
